import Mathlib

/-
Shallow embedding of the adapter-enumeration and capability-translation core
of the d3d9-to-11 repository (src/src/core/adapter.rs, src/src/core/context.rs).

Backend behaviour (DXGI factory/adapter/output handles and the D3D11
capability device) is modelled through oracle structures holding pure
functions: each FFI call site in the source reads the corresponding oracle
field.  Interior mutability (the RefCell mode cache) becomes explicit state
passing; each method that can populate the cache also returns the number of
backing-output queries it performed, so that caching claims can be stated.
-/

namespace D3d9

/-- DXGI_RATIONAL: the rational refresh rate of a display mode. -/
structure RationalRate where
  numerator : Nat
  denominator : Nat
deriving DecidableEq, Repr

/-- Fields of DXGI_MODE_DESC that the adapter layer reads. -/
structure ModeDesc where
  width : Nat
  height : Nat
  refreshRate : RationalRate
deriving DecidableEq, Repr

/-- Fields of DXGI_ADAPTER_DESC that the adapter layer reads. -/
structure AdapterDesc where
  description : String
  vendorId : Nat
  deviceId : Nat
  subSysId : Nat
  revision : Nat
  dedicatedVideoMemory : Nat
  dedicatedSystemMemory : Nat
  sharedSystemMemory : Nat
deriving DecidableEq, Repr

/-- Fields of DXGI_OUTPUT_DESC that the adapter layer reads (the monitor
handle, modelled as a number; 0 stands for the null handle). -/
structure OutputDesc where
  monitor : Nat
deriving DecidableEq, Repr

/-- Behaviour of an IDXGIOutput handle as observed through GetDisplayModeList:
for a DXGI format, `none` models a failed call (the mode count stays 0) and
`some l` a successful call that reports the modes `l`. -/
structure OutputOracle where
  getDisplayModeList : Nat → Option (List ModeDesc)

/-- Behaviour of the capability ID3D11Device: CheckFormatSupport returns the
support bitmask on success and `none` on a failing HRESULT;
CheckMultisampleQualityLevels likewise returns the quality-level count. -/
structure DeviceOracle where
  checkFormatSupport : Nat → Option Nat
  checkMultisampleQualityLevels : Nat → Nat → Option Nat

/-- Modelled from the spec: src/error.rs is not under src/.  Section 7 and
the call sites name the legacy status codes (InvalidCall, NotAvailable,
NotFound, Success) and a distinct error kind per failing construction step
(AdapterInitFailed, DeviceCreateFailed, FactoryCreateFailed). -/
inductive Error where
  | success
  | invalidCall
  | notAvailable
  | notFound
  | adapterInitFailed
  | deviceCreateFailed
  | factoryCreateFailed
deriving DecidableEq, Repr

/-- Modelled from the spec: the format-translator module (src/core/fmt.rs) is
not under src/.  Section 4.1 specifies three stateless total pure functions;
the embedding keeps them as an arbitrary structure of pure functions and the
theorems quantify over it. -/
structure FmtFns where
  d3d_format_to_dxgi : Nat → Nat
  is_display_mode_format : Nat → Bool
  is_depth_stencil_format : Nat → Bool

/-- The resource types distinguished by Adapter::is_format_supported
(crate::core::ResourceType, used via the variant names at the call site). -/
inductive ResourceType where
  | Surface
  | Volume
  | Texture
  | VolumeTexture
  | CubeTexture
  | VertexBuffer
  | IndexBuffer
deriving DecidableEq, Repr

/-- D3D11_FORMAT_SUPPORT_IA_VERTEX_BUFFER. -/
def D3D11_FORMAT_SUPPORT_IA_VERTEX_BUFFER : Nat := 0x2

/-- D3D11_FORMAT_SUPPORT_IA_INDEX_BUFFER. -/
def D3D11_FORMAT_SUPPORT_IA_INDEX_BUFFER : Nat := 0x4

/-- D3D11_FORMAT_SUPPORT_TEXTURE2D. -/
def D3D11_FORMAT_SUPPORT_TEXTURE2D : Nat := 0x20

/-- D3D11_FORMAT_SUPPORT_TEXTURE3D. -/
def D3D11_FORMAT_SUPPORT_TEXTURE3D : Nat := 0x40

/-- D3D11_FORMAT_SUPPORT_TEXTURECUBE. -/
def D3D11_FORMAT_SUPPORT_TEXTURECUBE : Nat := 0x80

/-- D3D11_FORMAT_SUPPORT_MIP_AUTOGEN. -/
def D3D11_FORMAT_SUPPORT_MIP_AUTOGEN : Nat := 0x2000

/-- D3D11_FORMAT_SUPPORT_RENDER_TARGET. -/
def D3D11_FORMAT_SUPPORT_RENDER_TARGET : Nat := 0x4000

/-- D3D11_FORMAT_SUPPORT_DEPTH_STENCIL. -/
def D3D11_FORMAT_SUPPORT_DEPTH_STENCIL : Nat := 0x10000

/-- Modelled from the spec: the crate's UsageFlags bitflags type lives in the
missing core module; the three flags consulted by the support check carry the
legacy D3DUSAGE bit values.  D3DUSAGE_RENDERTARGET. -/
def USAGE_RENDER_TARGET : Nat := 0x1

/-- D3DUSAGE_DEPTHSTENCIL (see USAGE_RENDER_TARGET). -/
def USAGE_DEPTH_STENCIL : Nat := 0x2

/-- D3DUSAGE_AUTOGENMIPMAP (see USAGE_RENDER_TARGET). -/
def USAGE_AUTO_GEN_MIP_MAP : Nat := 0x400

/-- bitflags' UsageFlags::intersects: the two bit sets share a set bit. -/
def intersects (a b : Nat) : Bool := a.land b != 0

/-- The Adapter struct of src/src/core/adapter.rs.  The ComPtr fields are
replaced by their behavioural oracles; the RefCell mode cache becomes an
association list (insertion conses a binding, which matches HashMap::insert
because the source only inserts keys that are absent). -/
structure Adapter where
  index : Nat
  adapter_desc : AdapterDesc
  output : Option OutputOracle
  output_desc : Option OutputDesc
  mode_cache : List (Nat × List ModeDesc)
  device : DeviceOracle

/-- Backend behaviour of one enumerated IDXGIAdapter handle, together with the
outcome of D3D11CreateDevice on it: GetDesc on the adapter, EnumOutputs(0),
GetDesc on that output, and device creation (device plus negotiated feature
level). -/
structure AdapterHandle where
  getDesc : Option AdapterDesc
  enumOutputs0 : Option OutputOracle
  outputGetDesc : Option OutputDesc
  createDevice : Option (DeviceOracle × Nat)

/-- Adapter::new.  A failing adapter GetDesc is fatal; a missing output is
not; a failing output GetDesc degrades to no output description; a failing
D3D11CreateDevice is fatal; the mode cache starts empty. -/
def Adapter.new (index : Nat) (h : AdapterHandle) : Except Error Adapter :=
  match h.getDesc with
  | none => .error .adapterInitFailed
  | some adapter_desc =>
    let output := h.enumOutputs0
    let output_desc :=
      match output with
      | none => none
      | some _ => h.outputGetDesc
    match h.createDevice with
    | none => .error .deviceCreateFailed
    | some (device, _feature_level) =>
      .ok { index := index, adapter_desc := adapter_desc, output := output,
            output_desc := output_desc, mode_cache := [], device := device }

/-- Adapter::identifier.  The struct starts from mem::zeroed and only the
fields written in the source are filled in; in particular DeviceIdentifier is
never written (the source comment describes combining the 64-bit LUID with
the index, but no write of the field follows), so it keeps the zeroed GUID. -/
structure D3DADAPTER_IDENTIFIER9 where
  driver : String
  description : String
  deviceName : String
  driverVersion : Nat
  vendorId : Nat
  deviceId : Nat
  subSysId : Nat
  revision : Nat
  deviceIdentifier : Nat
  whqlLevel : Nat
deriving DecidableEq, Repr

/-- The body of Adapter::identifier. -/
def Adapter.identifier (a : Adapter) : D3DADAPTER_IDENTIFIER9 :=
  let desc := a.adapter_desc
  { driver := "D3D 9-to-11 Driver"
    description := desc.description ++ " " ++ "(D3D 9-to-11 Device)"
    deviceName := "DISPLAY" ++ toString a.index
    driverVersion := 1
    vendorId := desc.vendorId
    deviceId := desc.deviceId
    subSysId := desc.subSysId
    revision := desc.revision
    deviceIdentifier := 0
    whqlLevel := 1 }

/-- Adapter::cache_display_modes.  Returns the updated adapter and the number
of GetDisplayModeList calls made against the backing output (the source makes
two when populating: one for the count, one to fill the slice).  When the
first call fails the count stays 0 and the empty slice is still inserted, so
failed lookups are remembered. -/
def Adapter.cache_display_modes (f : FmtFns) (a : Adapter) (fmt : Nat) :
    Adapter × Nat :=
  match a.output with
  | none => (a, 0)
  | some output =>
    if (a.mode_cache.lookup fmt).isSome then (a, 0)
    else
      let format := f.d3d_format_to_dxgi fmt
      let mode_descs := (output.getDisplayModeList format).getD []
      ({ a with mode_cache := (fmt, mode_descs) :: a.mode_cache }, 2)

/-- Adapter::mode_count: the count, the updated adapter, and the number of
backing-output queries made. -/
def Adapter.mode_count (f : FmtFns) (a : Adapter) (fmt : Nat) :
    Nat × Adapter × Nat :=
  if a.output.isNone || !(f.is_display_mode_format fmt) then (0, a, 0)
  else
    let r := a.cache_display_modes f fmt
    let modes := (r.1.mode_cache.lookup fmt).getD []
    (modes.length % 2 ^ 32, r.1, r.2)

/-- D3DDISPLAYMODE as filled in by Adapter::mode. -/
structure D3DDISPLAYMODE where
  width : Nat
  height : Nat
  refreshRate : Nat
  format : Nat
deriving DecidableEq, Repr

/-- Adapter::mode: the optional display mode, the updated adapter, and the
number of backing-output queries made. -/
def Adapter.mode (f : FmtFns) (a : Adapter) (fmt : Nat) (index : Nat) :
    Option D3DDISPLAYMODE × Adapter × Nat :=
  if a.output.isNone || !(f.is_display_mode_format fmt) then (none, a, 0)
  else
    let r := a.cache_display_modes f fmt
    let modes := (r.1.mode_cache.lookup fmt).getD []
    ((modes.get? index).map fun m =>
      { width := m.width
        height := m.height
        refreshRate :=
          if m.refreshRate.denominator = 0 then 0
          else m.refreshRate.numerator / m.refreshRate.denominator
        format := fmt }, r.1, r.2)

/-- Adapter::is_format_supported. -/
def Adapter.is_format_supported (f : FmtFns) (a : Adapter) (fmt : Nat)
    (rt : ResourceType) (usage : Nat) : Bool :=
  let dxgiFmt := f.d3d_format_to_dxgi fmt
  match a.device.checkFormatSupport dxgiFmt with
  | none => false
  | some support =>
    let check_rt : ResourceType → Nat → Bool := fun d3d9_rt sp =>
      rt == d3d9_rt && support.land sp == 0
    let check_usage : Nat → Nat → Bool := fun d3d9_usage uf =>
      intersects usage d3d9_usage && support.land uf == 0
    let lacks_support :=
      check_rt .Surface D3D11_FORMAT_SUPPORT_TEXTURE2D ||
      check_rt .Volume D3D11_FORMAT_SUPPORT_TEXTURE3D ||
      check_rt .Texture D3D11_FORMAT_SUPPORT_TEXTURE2D ||
      check_rt .VolumeTexture D3D11_FORMAT_SUPPORT_TEXTURE3D ||
      check_rt .CubeTexture D3D11_FORMAT_SUPPORT_TEXTURECUBE ||
      check_rt .VertexBuffer D3D11_FORMAT_SUPPORT_IA_VERTEX_BUFFER ||
      check_rt .IndexBuffer D3D11_FORMAT_SUPPORT_IA_INDEX_BUFFER ||
      check_usage USAGE_AUTO_GEN_MIP_MAP D3D11_FORMAT_SUPPORT_MIP_AUTOGEN ||
      check_usage USAGE_RENDER_TARGET D3D11_FORMAT_SUPPORT_RENDER_TARGET ||
      check_usage USAGE_DEPTH_STENCIL D3D11_FORMAT_SUPPORT_DEPTH_STENCIL
    !lacks_support

/-- Adapter::is_multisampling_supported: quality stays 0 when the query
fails. -/
def Adapter.is_multisampling_supported (f : FmtFns) (a : Adapter) (fmt : Nat)
    (ms : Nat) : Nat :=
  let dxgiFmt := f.d3d_format_to_dxgi fmt
  (a.device.checkMultisampleQualityLevels dxgiFmt ms).getD 0

/-- Adapter::monitor. -/
def Adapter.monitor (a : Adapter) : Nat :=
  (a.output_desc.map fun desc => desc.monitor).getD 0

/-- Adapter::available_memory: the three SIZE_T fields are summed as 64-bit
machine integers, rounded down to a multiple of one MiB, and clamped to
u32::MAX. -/
def Adapter.available_memory (a : Adapter) : Nat :=
  let desc := a.adapter_desc
  let mem := (desc.dedicatedVideoMemory + desc.dedicatedSystemMemory +
    desc.sharedSystemMemory) % 2 ^ 64
  let mem := (mem / (1024 * 1024)) * (1024 * 1024)
  min mem (2 ^ 32 - 1)

/-- Behaviour of the IDXGIFactory handle: EnumAdapters returns a handle on a
zero HRESULT and `none` otherwise (exhaustion or failure). -/
structure FactoryOracle where
  enumAdapters : Nat → Option AdapterHandle

/-- The adapter-enumeration loop of Context::new.  The source builds the list
with `(0..).scan(..).fuse().collect()`: the scan closure returns
`Adapter::new(id, handle).ok()`, so the iteration ends at the first ordinal
where either EnumAdapters returns a nonzero HRESULT or Adapter::new fails
(a `None` from a scan closure terminates the iterator).  The unbounded range
is modelled with fuel; any fuel at least the index of the first failing
ordinal yields the same list. -/
def enumAdaptersFrom (fac : FactoryOracle) : Nat → Nat → List Adapter
  | 0, _ => []
  | fuel + 1, id =>
    match fac.enumAdapters id with
    | none => []
    | some h =>
      match Adapter.new id h with
      | .ok a => a :: enumAdaptersFrom fac fuel (id + 1)
      | .error _ => []

/-- The Context struct of src/src/core/context.rs (the COM vtable and
refcount are plumbing outside the core). -/
structure Context where
  factory : FactoryOracle
  adapters : List Adapter

/-- Context::new, given a successfully created factory. -/
def Context.new (fac : FactoryOracle) (fuel : Nat) : Context :=
  { factory := fac, adapters := enumAdaptersFrom fac fuel 0 }

/-- Context::check_adapter. -/
def Context.check_adapter (c : Context) (adapter : Nat) : Except Error Adapter :=
  match c.adapters.get? adapter with
  | some a => .ok a
  | none => .error .invalidCall

/-- D3DDEVTYPE_HAL. -/
def D3DDEVTYPE_HAL : Nat := 1

/-- Context::check_devty. -/
def Context.check_devty (_c : Context) (dev_ty : Nat) : Error :=
  if dev_ty = D3DDEVTYPE_HAL then .success else .invalidCall

/-- Context::get_adapter_count: adapters.len() as u32. -/
def Context.get_adapter_count (c : Context) : Nat :=
  c.adapters.length % 2 ^ 32

/-- Context::get_adapter_mode_count: an out-of-range ordinal yields the u32
default 0 (no error is reported); otherwise the count is forwarded to the
adapter, whose cache update is threaded back into the context. -/
def Context.get_adapter_mode_count (f : FmtFns) (c : Context) (adapter : Nat)
    (fmt : Nat) : Nat × Context :=
  match c.adapters.get? adapter with
  | none => (0, c)
  | some a =>
    let r := a.mode_count f fmt
    (r.1, { c with adapters := c.adapters.set adapter r.2.1 })

/-- Context::check_device_format_conversion: both format arguments are
ignored; only the adapter ordinal and device type are validated. -/
def Context.check_device_format_conversion (c : Context) (adapter : Nat)
    (ty : Nat) (_src_fmt _tgt_fmt : Nat) : Error :=
  match c.check_adapter adapter with
  | .error e => e
  | .ok _ =>
    match c.check_devty ty with
    | .success => .success
    | e => e

/-- The spec's reading of isFormatSupported, for comparison with the source
embedding: the required capability bit per requested resource kind
(surface/texture to the 2D-texture bit, volume/volume-texture to the
3D-texture bit, cube-texture to the cube bit, vertex-buffer and index-buffer
to their bits). -/
def requiredKindBit : ResourceType → Nat
  | .Surface => D3D11_FORMAT_SUPPORT_TEXTURE2D
  | .Texture => D3D11_FORMAT_SUPPORT_TEXTURE2D
  | .Volume => D3D11_FORMAT_SUPPORT_TEXTURE3D
  | .VolumeTexture => D3D11_FORMAT_SUPPORT_TEXTURE3D
  | .CubeTexture => D3D11_FORMAT_SUPPORT_TEXTURECUBE
  | .VertexBuffer => D3D11_FORMAT_SUPPORT_IA_VERTEX_BUFFER
  | .IndexBuffer => D3D11_FORMAT_SUPPORT_IA_INDEX_BUFFER

/-- The spec's reading of isFormatSupported as a predicate: the underlying
per-format capability query succeeds, the requested resource kind's required
bit is set, and each usage flag present has its capability bit set; an
absent usage flag imposes nothing. -/
def formatSupportedSpec (f : FmtFns) (a : Adapter) (fmt : Nat)
    (rt : ResourceType) (usage : Nat) : Prop :=
  ∃ support,
    a.device.checkFormatSupport (f.d3d_format_to_dxgi fmt) = some support ∧
    support.land (requiredKindBit rt) ≠ 0 ∧
    (usage.land USAGE_AUTO_GEN_MIP_MAP ≠ 0 →
      support.land D3D11_FORMAT_SUPPORT_MIP_AUTOGEN ≠ 0) ∧
    (usage.land USAGE_RENDER_TARGET ≠ 0 →
      support.land D3D11_FORMAT_SUPPORT_RENDER_TARGET ≠ 0) ∧
    (usage.land USAGE_DEPTH_STENCIL ≠ 0 →
      support.land D3D11_FORMAT_SUPPORT_DEPTH_STENCIL ≠ 0)

/-- The spec's formula for availableMemory: the exact (unwrapped) sum of the
three memory sizes, rounded down to whole mebibytes, clamped to the 32-bit
unsigned range by saturation. -/
def availableMemorySpec (a : Adapter) : Nat :=
  let desc := a.adapter_desc
  let sum := desc.dedicatedVideoMemory + desc.dedicatedSystemMemory +
    desc.sharedSystemMemory
  min ((sum / (1024 * 1024)) * (1024 * 1024)) (2 ^ 32 - 1)

/-- A concrete adapter description used by the witnesses. -/
def descStub : AdapterDesc :=
  { description := "Stub GPU", vendorId := 0x8086, deviceId := 0x1234,
    subSysId := 5, revision := 6, dedicatedVideoMemory := 256 * 1024 * 1024,
    dedicatedSystemMemory := 0, sharedSystemMemory := 3 * 1024 * 1024 + 7 }

/-- A capability device whose queries all fail. -/
def devStub : DeviceOracle :=
  { checkFormatSupport := fun _ => none,
    checkMultisampleQualityLevels := fun _ _ => none }

/-- An output whose GetDisplayModeList always fails. -/
def outFailing : OutputOracle :=
  { getDisplayModeList := fun _ => none }

/-- A display mode whose rational refresh rate has a zero denominator. -/
def modeZeroDen : ModeDesc := ⟨640, 480, ⟨75, 0⟩⟩

/-- An output reporting two display modes, the first with a zero-denominator
refresh rate. -/
def outModes : OutputOracle :=
  { getDisplayModeList := fun _ => some [modeZeroDen, ⟨800, 600, ⟨60000, 1000⟩⟩] }

/-- A concrete format translator used by the witnesses. -/
def fmtStub : FmtFns :=
  { d3d_format_to_dxgi := fun n => n,
    is_display_mode_format := fun n => decide (n ≤ 200),
    is_depth_stencil_format := fun _ => false }

/-- A concrete headless adapter (no output). -/
def adapterNoOutput : Adapter :=
  { index := 0, adapter_desc := descStub, output := none, output_desc := none,
    mode_cache := [], device := devStub }

/-- A concrete adapter whose output reports modes. -/
def adapterWithOutput : Adapter :=
  { index := 0, adapter_desc := descStub, output := some outModes,
    output_desc := some { monitor := 42 }, mode_cache := [], device := devStub }

/-- A concrete adapter whose output's mode queries fail. -/
def adapterFailingOutput : Adapter :=
  { index := 1, adapter_desc := descStub, output := some outFailing,
    output_desc := none, mode_cache := [], device := devStub }

/-- A concrete adapter whose cache already holds a zero-denominator mode for
format 5. -/
def adapterCachedZeroDen : Adapter :=
  { index := 0, adapter_desc := descStub, output := some outModes,
    output_desc := none, mode_cache := [(5, [modeZeroDen])],
    device := devStub }

/-- A handle whose construction succeeds. -/
def okHandle : AdapterHandle :=
  { getDesc := some descStub, enumOutputs0 := some outModes,
    outputGetDesc := some { monitor := 42 },
    createDevice := some (devStub, 0xb000) }

/-- A handle whose adapter GetDesc fails, so Adapter::new fails. -/
def badHandle : AdapterHandle :=
  { getDesc := none, enumOutputs0 := none, outputGetDesc := none,
    createDevice := some (devStub, 0xb000) }

/-- A factory that enumerates a failing handle at ordinal 0, a good handle at
ordinal 1, and is exhausted from ordinal 2 on. -/
def facBadThenGood : FactoryOracle :=
  { enumAdapters := fun id =>
      if id = 0 then some badHandle
      else if id = 1 then some okHandle
      else none }

/-- A factory that enumerates two good handles then is exhausted. -/
def facTwoGood : FactoryOracle :=
  { enumAdapters := fun id =>
      if id ≤ 1 then some okHandle else none }

/-- A concrete context with exactly one adapter. -/
def ctxOne : Context :=
  { factory := facTwoGood, adapters := [adapterWithOutput] }

/-- C2 evidence: identifier() leaves the 128-bit DeviceIdentifier at the
zeroed GUID for every adapter (the LUID-with-ordinal combination described in
the source's own comment is never written), so all adapters share it. -/
theorem identifier_deviceIdentifier_zero (a : Adapter) :
    a.identifier.deviceIdentifier = 0 := rfl

/-- C6: when the adapter has no primary output or the format is not a display
mode format, mode_count returns 0 and mode returns none for every index, the
adapter state (hence the cache) is unchanged and no backing query is made. -/
theorem mode_count_mode_no_output_or_bad_format (f : FmtFns) (a : Adapter)
    (fmt i : Nat)
    (h : a.output = none ∨ f.is_display_mode_format fmt = false) :
    a.mode_count f fmt = (0, a, 0) ∧ a.mode f fmt i = (none, a, 0) := by
  have hcond : (a.output.isNone || !(f.is_display_mode_format fmt)) = true := by
    rcases h with h | h <;> simp [h]
  constructor <;> simp [Adapter.mode_count, Adapter.mode, hcond]

/-- Witness for the C6 theorem at a concrete headless adapter. -/
theorem mode_count_mode_no_output_witness :
    adapterNoOutput.mode_count fmtStub 5 = (0, adapterNoOutput, 0) ∧
    adapterNoOutput.mode fmtStub 5 0 = (none, adapterNoOutput, 0) :=
  mode_count_mode_no_output_or_bad_format fmtStub adapterNoOutput 5 0 (Or.inl rfl)

/-- C7: with fewer than 2^32 adapters, get_adapter_count is exactly the
number of constructed adapters, check_adapter succeeds on every ordinal below
it and fails with InvalidCall on every ordinal at or above it (including
boundary values of the wrapped unsigned argument). -/
theorem adapter_ordinals_dense (c : Context) (h : c.adapters.length < 2 ^ 32) :
    c.get_adapter_count = c.adapters.length ∧
    (∀ ord, ord < c.adapters.length → (c.check_adapter ord).isOk = true) ∧
    (∀ ord, c.adapters.length ≤ ord →
      c.check_adapter ord = .error .invalidCall) := by
  refine ⟨Nat.mod_eq_of_lt h, ?_, ?_⟩
  · intro ord hord
    simp [Context.check_adapter, List.getElem?_eq_getElem hord, Except.isOk, Except.toBool]
  · intro ord hord
    simp [Context.check_adapter, List.getElem?_eq_none hord]

/-- Witness for the C7 theorem at a one-adapter context. -/
theorem adapter_ordinals_dense_witness :
    ctxOne.get_adapter_count = ctxOne.adapters.length ∧
    (ctxOne.check_adapter 0).isOk = true ∧
    ctxOne.check_adapter 4294967295 = .error .invalidCall := by
  obtain ⟨h1, h2, h3⟩ := adapter_ordinals_dense ctxOne (by decide)
  exact ⟨h1, h2 0 (by decide), h3 4294967295 (by decide)⟩

/-- C8: available_memory computes the spec formula (sum of the three memory
sizes, floored to whole mebibytes, saturated at u32::MAX) whenever the sum
does not overflow 64 bits, and is always at most u32::MAX; the function is
total and reports no error. -/
theorem available_memory_formula (a : Adapter)
    (h : a.adapter_desc.dedicatedVideoMemory +
      a.adapter_desc.dedicatedSystemMemory +
      a.adapter_desc.sharedSystemMemory < 2 ^ 64) :
    a.available_memory = availableMemorySpec a ∧
    a.available_memory ≤ 2 ^ 32 - 1 := by
  have key : a.available_memory =
      min ((((a.adapter_desc.dedicatedVideoMemory +
        a.adapter_desc.dedicatedSystemMemory +
        a.adapter_desc.sharedSystemMemory) % 2 ^ 64) / (1024 * 1024)) *
        (1024 * 1024)) (2 ^ 32 - 1) := rfl
  have key' : availableMemorySpec a =
      min (((a.adapter_desc.dedicatedVideoMemory +
        a.adapter_desc.dedicatedSystemMemory +
        a.adapter_desc.sharedSystemMemory) / (1024 * 1024)) *
        (1024 * 1024)) (2 ^ 32 - 1) := rfl
  rw [key, key', Nat.mod_eq_of_lt h]
  exact ⟨rfl, Nat.min_le_right _ _⟩

/-- Witness for the C8 theorem at a concrete adapter description. -/
theorem available_memory_formula_witness :
    adapterWithOutput.available_memory = availableMemorySpec adapterWithOutput ∧
    adapterWithOutput.available_memory ≤ 2 ^ 32 - 1 :=
  available_memory_formula adapterWithOutput (by decide)

/-- C9: check_device_format_conversion succeeds for every pair of formats
once the adapter ordinal and device type validate, and its result never
depends on the format arguments. -/
theorem check_device_format_conversion_permissive (c : Context)
    (adapter ty s t s' t' : Nat) :
    (adapter < c.adapters.length → ty = D3DDEVTYPE_HAL →
      c.check_device_format_conversion adapter ty s t = .success) ∧
    c.check_device_format_conversion adapter ty s t =
      c.check_device_format_conversion adapter ty s' t' := by
  constructor
  · intro h1 h2
    simp [Context.check_device_format_conversion, Context.check_adapter,
      List.getElem?_eq_getElem h1, Context.check_devty, h2]
  · rfl

/-- Witness for the C9 theorem at a validated ordinal and device type. -/
theorem check_device_format_conversion_witness :
    ctxOne.check_device_format_conversion 0 1 3 4 = .success ∧
    ctxOne.check_device_format_conversion 0 1 3 4 =
      ctxOne.check_device_format_conversion 0 1 8 9 := by
  obtain ⟨h1, h2⟩ := check_device_format_conversion_permissive ctxOne 0 1 3 4 8 9
  exact ⟨h1 (by decide) rfl, h2⟩

/-- C10: for every out-of-range ordinal get_adapter_mode_count returns 0 with
the context unchanged, even though check_adapter (used by the other
forwarding methods) reports InvalidCall for the same ordinal. -/
theorem get_adapter_mode_count_out_of_range (f : FmtFns) (c : Context)
    (ord fmt : Nat) (h : c.adapters.length ≤ ord) :
    Context.get_adapter_mode_count f c ord fmt = (0, c) ∧
    c.check_adapter ord = .error .invalidCall := by
  have hnone : c.adapters[ord]? = none := List.getElem?_eq_none h
  constructor
  · simp [Context.get_adapter_mode_count, hnone]
  · simp [Context.check_adapter, hnone]

/-- Witness for the C10 theorem at ordinal 1 of a one-adapter context. -/
theorem get_adapter_mode_count_out_of_range_witness :
    Context.get_adapter_mode_count fmtStub ctxOne 1 5 = (0, ctxOne) ∧
    ctxOne.check_adapter 1 = .error .invalidCall :=
  get_adapter_mode_count_out_of_range fmtStub ctxOne 1 5 (by decide)

/-- C4: for a cached display mode, mode() reports a refresh rate of 0 when
the rational rate's denominator is 0, and numerator / denominator otherwise;
the division is total and no error is produced in either case. -/
theorem mode_refresh_rate (f : FmtFns) (a : Adapter) (fmt i : Nat)
    (l : List ModeDesc) (m : ModeDesc)
    (ho : a.output.isSome = true) (hf : f.is_display_mode_format fmt = true)
    (hc : a.mode_cache.lookup fmt = some l) (hm : l.get? i = some m) :
    (m.refreshRate.denominator = 0 →
      (a.mode f fmt i).1 = some ⟨m.width, m.height, 0, fmt⟩) ∧
    (m.refreshRate.denominator ≠ 0 →
      (a.mode f fmt i).1 =
        some ⟨m.width, m.height,
          m.refreshRate.numerator / m.refreshRate.denominator, fmt⟩) := by
  obtain ⟨o, hoeq⟩ := Option.isSome_iff_exists.mp ho
  have hm' : l[i]? = some m := by rw [← List.get?_eq_getElem?]; exact hm
  constructor <;> intro hd <;>
    simp [Adapter.mode, Adapter.cache_display_modes, hoeq, hf, hc] <;>
    exact ⟨m, hm', rfl, rfl, by simp [hd]⟩

/-- Witness for the C4 theorem: a cached zero-denominator mode reports 0. -/
theorem mode_refresh_rate_witness :
    (adapterCachedZeroDen.mode fmtStub 5 0).1 = some ⟨640, 480, 0, 5⟩ :=
  (mode_refresh_rate fmtStub adapterCachedZeroDen 5 0 [modeZeroDen] modeZeroDen
    rfl rfl rfl rfl).1 rfl

/-- C3: is_format_supported returns true exactly when the underlying
per-format capability query succeeds, the requested resource kind's required
bit is set, and every usage flag present in the usage bits has its capability
bit set; in particular it is false whenever the query fails, and a kind or
usage that is not requested imposes no check. -/
theorem is_format_supported_iff (f : FmtFns) (a : Adapter) (fmt : Nat)
    (rt : ResourceType) (usage : Nat) :
    a.is_format_supported f fmt rt usage = true ↔
      formatSupportedSpec f a fmt rt usage := by
  unfold Adapter.is_format_supported formatSupportedSpec
  cases hq : a.device.checkFormatSupport (f.d3d_format_to_dxgi fmt) with
  | none => simp [hq]
  | some support =>
    simp only [hq, Option.some.injEq, exists_eq_left']
    cases rt <;>
      simp [hq, requiredKindBit, intersects, USAGE_AUTO_GEN_MIP_MAP,
        USAGE_RENDER_TARGET, USAGE_DEPTH_STENCIL,
        D3D11_FORMAT_SUPPORT_TEXTURE2D, D3D11_FORMAT_SUPPORT_TEXTURE3D,
        D3D11_FORMAT_SUPPORT_TEXTURECUBE, D3D11_FORMAT_SUPPORT_IA_VERTEX_BUFFER,
        D3D11_FORMAT_SUPPORT_IA_INDEX_BUFFER, D3D11_FORMAT_SUPPORT_MIP_AUTOGEN,
        D3D11_FORMAT_SUPPORT_RENDER_TARGET, D3D11_FORMAT_SUPPORT_DEPTH_STENCIL,
        and_assoc] <;>
      tauto

/-- Populating the cache never changes which output the adapter holds. -/
theorem cache_display_modes_preserves_output (f : FmtFns) (a : Adapter)
    (fmt : Nat) : (a.cache_display_modes f fmt).1.output = a.output := by
  cases ho : a.output <;> simp [Adapter.cache_display_modes, ho]
  split <;> simp [ho]

/-- Bindings already in the cache survive any population unchanged. -/
theorem cache_display_modes_monotone (f : FmtFns) (a : Adapter) (fmt k : Nat)
    (v : List ModeDesc) (h : a.mode_cache.lookup k = some v) :
    (a.cache_display_modes f fmt).1.mode_cache.lookup k = some v := by
  cases ho : a.output with
  | none => simpa [Adapter.cache_display_modes, ho] using h
  | some o =>
    by_cases hk : (a.mode_cache.lookup fmt).isSome
    · simpa [Adapter.cache_display_modes, ho, hk] using h
    · have hne : (k == fmt) = false := by
        simp only [beq_eq_false_iff_ne, ne_eq]
        intro e
        subst e
        rw [h] at hk
        simp at hk
      simp [Adapter.cache_display_modes, ho, hk, List.lookup, hne]
      exact h

/-- A second population for the same format is a no-op making no backing
queries. -/
theorem cache_display_modes_idem (f : FmtFns) (a : Adapter) (fmt : Nat) :
    (a.cache_display_modes f fmt).1.cache_display_modes f fmt =
      ((a.cache_display_modes f fmt).1, 0) := by
  cases ho : a.output with
  | none => simp [Adapter.cache_display_modes, ho]
  | some o =>
    by_cases hk : (a.mode_cache.lookup fmt).isSome
    · simp [Adapter.cache_display_modes, ho, hk]
    · simp [Adapter.cache_display_modes, ho, hk, List.lookup]

/-- A second mode_count for the same format returns the same count from the
already-populated cache, changes nothing and makes no backing query. -/
theorem mode_count_idem (f : FmtFns) (a : Adapter) (fmt : Nat) :
    ((a.mode_count f fmt).2.1.mode_count f fmt).1 = (a.mode_count f fmt).1 ∧
    ((a.mode_count f fmt).2.1.mode_count f fmt).2 =
      ((a.mode_count f fmt).2.1, 0) := by
  by_cases hg : (a.output.isNone || !(f.is_display_mode_format fmt)) = true
  · constructor <;> simp [Adapter.mode_count, hg]
  · have hout : (a.cache_display_modes f fmt).1.output = a.output :=
      cache_display_modes_preserves_output f a fmt
    have hg2 : (a.output.isNone || !(f.is_display_mode_format fmt)) = false :=
      eq_false_of_ne_true hg
    have hg' : ((a.cache_display_modes f fmt).1.output.isNone ||
        !(f.is_display_mode_format fmt)) = false := by
      rw [hout]
      exact hg2
    have hidem := cache_display_modes_idem f a fmt
    constructor <;>
      simp [Adapter.mode_count, hg2, hg', hidem]

/-- A failed backing query still inserts the (empty) entry, so the failure is
remembered and not retried. -/
theorem cache_display_modes_failure_remembered (f : FmtFns) (a : Adapter)
    (o : OutputOracle) (fmt : Nat) (ho : a.output = some o)
    (habs : a.mode_cache.lookup fmt = none)
    (hfail : o.getDisplayModeList (f.d3d_format_to_dxgi fmt) = none) :
    (a.cache_display_modes f fmt).1.mode_cache.lookup fmt = some [] := by
  simp [Adapter.cache_display_modes, ho, habs, hfail, List.lookup]

/-- C5: the mode cache only grows (existing bindings are never evicted or
changed), repopulating a format is a no-op with zero backing queries — hence
a second mode_count returns the same count with zero backing queries — and a
failed backing query still inserts an empty entry so it is not retried. -/
theorem mode_cache_grows_idempotent (f : FmtFns) (a : Adapter) (fmt : Nat) :
    (∀ k v, a.mode_cache.lookup k = some v →
      (a.cache_display_modes f fmt).1.mode_cache.lookup k = some v) ∧
    (a.cache_display_modes f fmt).1.cache_display_modes f fmt =
      ((a.cache_display_modes f fmt).1, 0) ∧
    (((a.mode_count f fmt).2.1.mode_count f fmt).1 = (a.mode_count f fmt).1 ∧
      ((a.mode_count f fmt).2.1.mode_count f fmt).2 =
        ((a.mode_count f fmt).2.1, 0)) ∧
    (∀ o, a.output = some o → a.mode_cache.lookup fmt = none →
      o.getDisplayModeList (f.d3d_format_to_dxgi fmt) = none →
      (a.cache_display_modes f fmt).1.mode_cache.lookup fmt = some []) :=
  ⟨fun k v h => cache_display_modes_monotone f a fmt k v h,
   cache_display_modes_idem f a fmt,
   mode_count_idem f a fmt,
   fun o ho h1 h2 => cache_display_modes_failure_remembered f a o fmt ho h1 h2⟩

/-- Witness for the C5 theorem: a failing output's entry is cached empty. -/
theorem mode_cache_grows_idempotent_witness :
    (adapterFailingOutput.cache_display_modes fmtStub 7).1.mode_cache.lookup 7 =
      some [] :=
  (mode_cache_grows_idempotent fmtStub adapterFailingOutput 7).2.2.2
    outFailing rfl rfl rfl

/-- Adapter::new stores exactly the ordinal it was given as the index. -/
theorem adapter_new_index (i : Nat) (h : AdapterHandle) (a : Adapter)
    (hok : Adapter.new i h = .ok a) : a.index = i := by
  unfold Adapter.new at hok
  cases hg : h.getDesc with
  | none => rw [hg] at hok; exact absurd hok (by simp)
  | some d =>
    rw [hg] at hok
    cases hc : h.createDevice with
    | none => rw [hc] at hok; exact absurd hok (by simp)
    | some p =>
      obtain ⟨dev, fl⟩ := p
      rw [hc] at hok
      simp only [Except.ok.injEq] at hok
      subst hok
      rfl

/-- One unfolding of the enumeration loop. -/
theorem enumAdaptersFrom_succ (fac : FactoryOracle) (n start : Nat) :
    enumAdaptersFrom fac (n + 1) start =
      match fac.enumAdapters start with
      | none => []
      | some h =>
        match Adapter.new start h with
        | .ok a => a :: enumAdaptersFrom fac n (start + 1)
        | .error _ => [] := rfl

/-- Elementwise description of the enumeration loop: every collected adapter
comes from a successful EnumAdapters and a successful Adapter::new at its raw
ordinal, and when the loop ends with fuel left, the first uncollected ordinal
is one where enumeration or construction fails. -/
theorem enumAdaptersFrom_spec (fac : FactoryOracle) (fuel start : Nat) :
    (∀ j a, (enumAdaptersFrom fac fuel start).get? j = some a →
      ∃ h, fac.enumAdapters (start + j) = some h ∧
        Adapter.new (start + j) h = .ok a) ∧
    ((enumAdaptersFrom fac fuel start).length < fuel →
      fac.enumAdapters (start + (enumAdaptersFrom fac fuel start).length) =
        none ∨
      ∃ h e,
        fac.enumAdapters (start + (enumAdaptersFrom fac fuel start).length) =
          some h ∧
        Adapter.new (start + (enumAdaptersFrom fac fuel start).length) h =
          .error e) := by
  induction fuel generalizing start with
  | zero =>
    constructor
    · intro j a hj
      simp [enumAdaptersFrom] at hj
    · intro hlt
      omega
  | succ n ih =>
    cases he : fac.enumAdapters start with
    | none =>
      constructor
      · intro j a hj
        simp [enumAdaptersFrom_succ, he] at hj
      · intro _
        left
        simp [enumAdaptersFrom_succ, he]
    | some h =>
      cases hn : Adapter.new start h with
      | error e =>
        constructor
        · intro j a hj
          simp [enumAdaptersFrom_succ, he, hn] at hj
        · intro _
          right
          refine ⟨h, e, ?_, ?_⟩ <;> simp [enumAdaptersFrom_succ, he, hn]
      | ok a0 =>
        have hlist : enumAdaptersFrom fac (n + 1) start =
            a0 :: enumAdaptersFrom fac n (start + 1) := by
          simp [enumAdaptersFrom_succ, he, hn]
        constructor
        · intro j b hj
          rw [hlist] at hj
          cases j with
          | zero =>
            simp only [List.get?] at hj
            obtain rfl : a0 = b := by simpa using hj
            exact ⟨h, by simpa using he, by simpa using hn⟩
          | succ j' =>
            simp only [List.get?] at hj
            obtain ⟨h', h1, h2⟩ := (ih (start + 1)).1 j' b hj
            have heq : start + (j' + 1) = start + 1 + j' := by omega
            rw [heq]
            exact ⟨h', h1, h2⟩
        · intro hlt
          rw [hlist] at hlt ⊢
          simp only [List.length_cons] at hlt ⊢
          have hlt' : (enumAdaptersFrom fac n (start + 1)).length < n := by
            omega
          have heq : start + ((enumAdaptersFrom fac n (start + 1)).length + 1) =
              start + 1 + (enumAdaptersFrom fac n (start + 1)).length := by
            omega
          rw [heq]
          exact (ih (start + 1)).2 hlt'

/-- C1 amended: Context construction itself never fails, and the adapter list
is the maximal prefix of raw ordinals 0, 1, 2, ... at which both factory
enumeration and Adapter::new succeed: every collected adapter was built from
its raw ordinal (so list positions, raw ordinals and stored indices all
coincide, densely from 0), and the first uncollected ordinal — fuel
permitting — is one where enumeration or construction fails.  A single
adapter's construction failure therefore ends enumeration (earlier adapters
are kept, later ones are dropped) instead of being skipped over. -/
theorem context_new_successful_run (fac : FactoryOracle) (fuel : Nat) :
    (∀ j a, (Context.new fac fuel).adapters.get? j = some a →
      ∃ h, fac.enumAdapters j = some h ∧ Adapter.new j h = .ok a ∧
        a.index = j) ∧
    ((Context.new fac fuel).adapters.length < fuel →
      fac.enumAdapters (Context.new fac fuel).adapters.length = none ∨
      ∃ h e,
        fac.enumAdapters (Context.new fac fuel).adapters.length = some h ∧
        Adapter.new (Context.new fac fuel).adapters.length h = .error e) := by
  have hadapt : (Context.new fac fuel).adapters = enumAdaptersFrom fac fuel 0 :=
    rfl
  have hs := enumAdaptersFrom_spec fac fuel 0
  constructor
  · intro j a hj
    rw [hadapt] at hj
    obtain ⟨h, h1, h2⟩ := hs.1 j a hj
    rw [Nat.zero_add] at h1 h2
    exact ⟨h, h1, h2, adapter_new_index j h a h2⟩
  · intro hlt
    rw [hadapt] at hlt ⊢
    have hd := hs.2 hlt
    rwa [Nat.zero_add] at hd

/-- Witness for the C1 amended theorem: with a factory exposing two good
handles, the adapter collected at position 0 comes from ordinal 0 and carries
index 0. -/
theorem context_new_successful_run_witness :
    ∃ h, facTwoGood.enumAdapters 0 = some h ∧
      Adapter.new 0 h = .ok adapterWithOutput ∧ adapterWithOutput.index = 0 :=
  (context_new_successful_run facTwoGood 5).1 0 adapterWithOutput rfl

/-- C1 counterexample: the factory enumerates a handle at ordinal 0 whose
construction fails and a handle at ordinal 1 whose construction succeeds, yet
the resulting adapter list is empty — the successfully constructible adapter
at ordinal 1 is not re-indexed to 0 but dropped, because a scan closure
returning None ends the iteration. -/
theorem context_new_stops_at_failure :
    facBadThenGood.enumAdapters 1 = some okHandle ∧
    (Adapter.new 1 okHandle).isOk = true ∧
    (Context.new facBadThenGood 10).adapters = [] :=
  ⟨rfl, rfl, rfl⟩

end D3d9
